import Mathlib

/-!
Verification development for the spatial zone-computation engine of the
HomeGrower-club/map repository.

The embedding translates `src/services/duckdbSpatial.ts` (the `DuckDBSpatialService`
class: `loadOSMData`, `getLocationType`, `calculateZones`, `repairGeometry`,
`searchLocations`) and the call-site guard logic of the `AutoCalculator`
component (`handleCalculateZones`).

Modelling conventions:
* Coordinates are rationals (`Rat`); the JavaScript doubles in the source are
  decimal literals that `Rat` represents exactly.
* SQL `NULL` is `Option`; a thrown JavaScript exception / rejected promise is
  `Except.error`.
* The DuckDB spatial extension's scalar functions (`ST_Buffer`, `ST_Union_Agg`,
  `ST_Difference`, `ST_Simplify`, `ST_AsGeoJSON`) are external library code, not
  repository code; they are kept abstract as a `SpatialEngine` record of
  operations, and theorems about `calculateZones` either hold for every engine
  or assume standard GEOS laws (stated as explicit hypotheses).
  The predicates the viewport filter depends on (`ST_Intersects` against an
  axis-aligned envelope, `ST_XMin`/…/`ST_YMax`, `ST_Centroid`) are implemented
  concretely with their standard point-set semantics over `Rat`, so that
  concrete rows can be evaluated.
-/

deriving instance DecidableEq for Except

namespace MapZones

/-- A longitude/latitude pair (WGS84 degrees), exact rationals. -/
structure Coord where
  x : Rat
  y : Rat
deriving Repr, DecidableEq

/-- A viewport bounding box, as built in `calculateZones` from the Leaflet
`LatLngBounds` (`getWest/getSouth/getEast/getNorth`). -/
structure BBox where
  west : Rat
  south : Rat
  east : Rat
  north : Rat
deriving Repr, DecidableEq

/-- The geometry kinds `loadOSMData` constructs: `POINT`, `LINESTRING`,
`POLYGON` WKT (a polygon is a single ring whose first and last coordinate
coincide). -/
inductive Geometry where
  | point (c : Coord)
  | linestring (cs : List Coord)
  | polygon (ring : List Coord)
deriving Repr, DecidableEq

namespace Geometry

/-- The coordinate list underlying a geometry. -/
def coords : Geometry → List Coord
  | .point c => [c]
  | .linestring cs => cs
  | .polygon cs => cs

end Geometry

/-- Minimum of a list of rationals (geometries are non-empty at every use site;
the `[]` case is junk). -/
def minList : List Rat → Rat
  | [] => 0
  | a :: rest => rest.foldl min a

/-- Maximum of a list of rationals. -/
def maxList : List Rat → Rat
  | [] => 0
  | a :: rest => rest.foldl max a

/-- Model of `ST_XMin`. -/
def stXMin (g : Geometry) : Rat := minList (g.coords.map (·.x))

/-- Model of `ST_XMax`. -/
def stXMax (g : Geometry) : Rat := maxList (g.coords.map (·.x))

/-- Model of `ST_YMin`. -/
def stYMin (g : Geometry) : Rat := minList (g.coords.map (·.y))

/-- Model of `ST_YMax`. -/
def stYMax (g : Geometry) : Rat := maxList (g.coords.map (·.y))

/-- Average of the coordinates of a list (used as linestring centroid model;
it agrees with the length-weighted `ST_Centroid` on single-segment
linestrings, the only linestrings any theorem below evaluates it on). -/
def vertexAverage (cs : List Coord) : Coord :=
  let n : Rat := cs.length
  ⟨(cs.map (·.x)).sum / n, (cs.map (·.y)).sum / n⟩

/-- Shoelace data for a closed ring: `(Σ crossᵢ, Σ (xᵢ+xᵢ₊₁)·crossᵢ, Σ (yᵢ+yᵢ₊₁)·crossᵢ)`
over consecutive vertex pairs, where `crossᵢ = xᵢ·yᵢ₊₁ − xᵢ₊₁·yᵢ`. -/
def shoelace (cs : List Coord) : Rat × Rat × Rat :=
  (cs.zip cs.tail).foldl
    (fun acc p =>
      let c := p.1.x * p.2.y - p.2.x * p.1.y
      (acc.1 + c, acc.2.1 + (p.1.x + p.2.x) * c, acc.2.2 + (p.1.y + p.2.y) * c))
    (0, 0, 0)

/-- Model of `ST_Centroid`: the point itself for points, the area centroid
(shoelace formula) for polygon rings, the vertex average for linestrings. -/
def stCentroid : Geometry → Coord
  | .point c => c
  | .linestring cs => vertexAverage cs
  | .polygon ring =>
    let s := shoelace ring
    ⟨s.2.1 / (3 * s.1), s.2.2 / (3 * s.1)⟩

/-- Is a point inside (or on the border of) an axis-aligned box? -/
def pointInBox (c : Coord) (b : BBox) : Bool :=
  decide (b.west ≤ c.x ∧ c.x ≤ b.east ∧ b.south ≤ c.y ∧ c.y ≤ b.north)

/-- Cross product `(a−o) × (b−o)`: orientation of `b` around the directed line
`o → a`. -/
def orient (o a b : Coord) : Rat :=
  (a.x - o.x) * (b.y - o.y) - (a.y - o.y) * (b.x - o.x)

/-- Do all four corners of the box lie strictly on one side of the line
through `p` and `q`? -/
def boxStrictlyOneSide (p q : Coord) (b : BBox) : Bool :=
  let d1 := orient p q ⟨b.west, b.south⟩
  let d2 := orient p q ⟨b.east, b.south⟩
  let d3 := orient p q ⟨b.east, b.north⟩
  let d4 := orient p q ⟨b.west, b.north⟩
  decide ((0 < d1 ∧ 0 < d2 ∧ 0 < d3 ∧ 0 < d4) ∨ (d1 < 0 ∧ d2 < 0 ∧ d3 < 0 ∧ d4 < 0))

/-- Exact segment/axis-aligned-box intersection test (separating-axis theorem:
the box axes are covered by the bounding-interval overlap checks, the segment
normal by the strictly-one-side check). -/
def segIntersectsBox (p q : Coord) (b : BBox) : Bool :=
  decide (min p.x q.x ≤ b.east ∧ b.west ≤ max p.x q.x ∧
          min p.y q.y ≤ b.north ∧ b.south ≤ max p.y q.y) &&
  !(boxStrictlyOneSide p q b)

/-- Consecutive vertex pairs of a coordinate list. -/
def segments (cs : List Coord) : List (Coord × Coord) := cs.zip cs.tail

/-- Ray-casting parity test: does the horizontal ray from `c` to the right
cross an odd number of ring edges? (Standard crossing-number point-in-polygon
test, exact over `Rat`.) -/
def pointInRing (c : Coord) (ring : List Coord) : Bool :=
  (segments ring).foldl
    (fun inside e =>
      let a := e.1
      let b := e.2
      if (decide (a.y ≤ c.y) != decide (b.y ≤ c.y)) &&
         decide ((b.x - a.x) * (c.y - a.y) - (c.x - a.x) * (b.y - a.y) > 0) ==
           decide (b.y > a.y) then !inside else inside)
    false

/-- Model of `ST_Intersects(geometry, ST_MakeEnvelope(west, south, east, north))`:
standard point-set intersection of the geometry with the closed box. -/
def stIntersectsBox (g : Geometry) (b : BBox) : Bool :=
  match g with
  | .point c => pointInBox c b
  | .linestring cs => (segments cs).any fun e => segIntersectsBox e.1 e.2 b
  | .polygon ring =>
    ((segments ring).any fun e => segIntersectsBox e.1 e.2 b) ||
    pointInRing ⟨b.west, b.south⟩ ring

/-! ## OSM input data and category classification

From the element handling in `loadOSMData` and from `getLocationType`.
Only the tag keys the service consults (`amenity`, `leisure`) plus `name`
are modelled; all other tags are irrelevant to the spatial logic. -/

/-- The tag projection relevant to classification and search. -/
structure Tags where
  amenity : Option String
  leisure : Option String
  name : Option String
deriving Repr, DecidableEq

/-- Source `getLocationType` (duckdbSpatial.ts): first matching rule wins, unmatched
tags map to `"other"`. -/
def getLocationType (tags : Tags) : String :=
  if tags.amenity = some ("school") then ("school")
  else if tags.amenity = some ("kindergarten") then ("kindergarten")
  else if tags.leisure = some ("playground") then ("playground")
  else if tags.amenity = some ("community_centre") then ("community_centre")
  else if tags.leisure = some ("sports_centre") then ("sports_centre")
  else ("other")

/-- An OSM node element (`{ type: 'node', id, lat, lon, tags? }`). -/
structure OSMNode where
  id : Int
  lat : Rat
  lon : Rat
  tags : Option Tags
deriving Repr, DecidableEq

/-- An OSM way element (`{ type: 'way', id, nodes, tags? }`). -/
structure OSMWay where
  id : Int
  nodeRefs : List Int
  tags : Option Tags
deriving Repr, DecidableEq

/-- One element of `osmData.elements`. -/
inductive OSMElement where
  | node (n : OSMNode)
  | way (w : OSMWay)
deriving Repr, DecidableEq

/-! ## Processing modes (utils/constants.ts `ProcessingMode`) -/

/-- Source `ProcessingMode = 'fast' | 'balanced' | 'accurate'`. -/
inductive Mode where
  | fast
  | balanced
  | accurate
deriving Repr, DecidableEq

/-- Source `calculateZones`: `const useSimplified = mode === 'fast' || mode === 'balanced'`. -/
def useSimplified (m : Mode) : Bool :=
  m = Mode.fast || m = Mode.balanced

/-- Source `calculateZones`: `const geometryColumn = useSimplified ? 'geometry_simple' : 'geometry'`. -/
def geometryColumn (m : Mode) : String :=
  if useSimplified m then ("geometry_simple") else ("geometry")

/-- Source `calculateZones`:
`const simplifyFactor = mode === 'fast' ? 0.001 : mode === 'balanced' ? 0.0001 : 0`. -/
def simplifyFactor (m : Mode) : Rat :=
  if m = Mode.fast then 0.001 else if m = Mode.balanced then 0.0001 else 0

/-! ## Ingestion: `loadOSMData`

First pass collects node coordinates into a map (`Map.set`: a later node with
the same id overwrites an earlier one); the second pass turns tagged nodes and
ways into insert rows, resolving way vertex references against that map and
dropping unresolvable references. -/

/-- First pass of `loadOSMData`: `nodes.set(element.id, [element.lon, element.lat])`
for each node element, in order. -/
def buildNodes (es : List OSMElement) : List (Int × Coord) :=
  es.filterMap fun e =>
    match e with
    | .node n => some (n.id, ⟨n.lon, n.lat⟩)
    | .way _ => none

/-- Source `nodes.get(nodeId)`: the last binding wins, as with `Map.set`. -/
def lookupNode (ns : List (Int × Coord)) (i : Int) : Option Coord :=
  ns.foldl (fun acc p => if p.1 = i then some p.2 else acc) none

/-- Source `way.nodes.map(nodeId => nodes.get(nodeId)).filter(coord => coord !== undefined)`:
vertex references absent from the node index are dropped. -/
def resolveWayCoords (ns : List (Int × Coord)) (w : OSMWay) : List Coord :=
  w.nodeRefs.filterMap (lookupNode ns)

/-- Source `coords[0][0] === coords[coords.length-1][0] && coords[0][1] === coords[coords.length-1][1]`. -/
def isClosedList (cs : List Coord) : Bool :=
  match cs.head?, cs.getLast? with
  | some a, some b => decide (a.x = b.x ∧ a.y = b.y)
  | _, _ => false

/-- The polygon-versus-line decision of `loadOSMData`, applied to an already
resolved coordinate list: with fewer than 2 coordinates the way is skipped,
otherwise it becomes a polygon exactly when the list is closed and has at
least 4 points, and a linestring otherwise. -/
def wayGeometryOfCoords (coords : List Coord) : Option Geometry :=
  if 2 ≤ coords.length then
    some (if isClosedList coords && decide (4 ≤ coords.length)
          then .polygon coords else .linestring coords)
  else none

/-- The geometry `loadOSMData` builds for a way element. -/
def processWay (ns : List (Int × Coord)) (w : OSMWay) : Option Geometry :=
  let coords := resolveWayCoords ns w
  if 2 ≤ coords.length then
    let isClosed := isClosedList coords
    some (if isClosed && decide (4 ≤ coords.length)
          then .polygon coords else .linestring coords)
  else none

/-- A row of `insertData` in `loadOSMData` (before the SQL-computed columns). -/
structure InsertRow where
  id : Nat
  osmId : Int
  name : Option String
  ty : String
  tags : Tags
  geometry : Geometry
deriving Repr, DecidableEq

/-- The row `loadOSMData`'s second pass produces for one element, given the
next fresh `id` (nodes and ways without tags, and ways with fewer than two
resolvable vertices, are skipped). -/
def elementRow (ns : List (Int × Coord)) (e : OSMElement) (id : Nat) : Option InsertRow :=
  match e with
  | .node n =>
    match n.tags with
    | some t => some ⟨id, n.id, t.name, getLocationType t, t, .point ⟨n.lon, n.lat⟩⟩
    | none => none
  | .way w =>
    match w.tags with
    | some t => (processWay ns w).map fun g => ⟨id, w.id, t.name, getLocationType t, t, g⟩
    | none => none

/-- The second pass of `loadOSMData`: `id` starts at 1 and increments only when
a row is pushed. -/
def buildRows (ns : List (Int × Coord)) : List OSMElement → Nat → List InsertRow
  | [], _ => []
  | e :: rest, nextId =>
    match elementRow ns e nextId with
    | some r => r :: buildRows ns rest (nextId + 1)
    | none => buildRows ns rest nextId

/-- The full data-preparation part of `loadOSMData`: both passes. -/
def loadOSMData (es : List OSMElement) : List InsertRow :=
  buildRows (buildNodes es) es 1

/-! ## Stored rows with SQL-computed acceleration columns

The batch `INSERT` computes `geometry_simple` (`ST_Simplify(geom, 0.0001)`),
the bounding-box columns, and the grid cell of the centroid
(`CAST(FLOOR(ST_X(ST_Centroid(geom)) / 0.01) AS INTEGER)` and likewise for y).
`ST_Simplify` is external engine code and is passed in abstractly. -/

/-- A row of the `sensitive_locations` table. -/
structure LocationRow where
  id : Nat
  osmId : Int
  name : Option String
  ty : String
  tags : Tags
  geometry : Geometry
  geometrySimple : Geometry
  bboxMinx : Rat
  bboxMiny : Rat
  bboxMaxx : Rat
  bboxMaxy : Rat
  gridX : Int
  gridY : Int
deriving Repr, DecidableEq

/-- The stored row for an insert row, with the acceleration columns computed
exactly as in the `INSERT ... VALUES` statement of `loadOSMData`.
`simp0001` is the engine's `ST_Simplify(·, 0.0001)`. -/
def toLocationRow (simp0001 : Geometry → Geometry) (r : InsertRow) : LocationRow :=
  { id := r.id
    osmId := r.osmId
    name := r.name
    ty := r.ty
    tags := r.tags
    geometry := r.geometry
    geometrySimple := simp0001 r.geometry
    bboxMinx := stXMin r.geometry
    bboxMiny := stYMin r.geometry
    bboxMaxx := stXMax r.geometry
    bboxMaxy := stYMax r.geometry
    gridX := ⌊(stCentroid r.geometry).x / (0.01 : Rat)⌋
    gridY := ⌊(stCentroid r.geometry).y / (0.01 : Rat)⌋ }

/-! ## The viewport filter of `calculateZones`

`calculateZones` computes the viewport's grid-cell range
(`Math.floor(bbox.west / 0.01)` … `Math.ceil(bbox.north / 0.01)`) and the
`filtered_locations` CTE applies, in order: the grid-cell range check, the
bounding-box overlap check, and the exact `ST_Intersects` test against the
viewport envelope, on the mode-selected geometry column. -/

/-- Source `const gridMinX = Math.floor(bbox.west / 0.01)`. -/
def gridMinX (b : BBox) : Int := ⌊b.west / (0.01 : Rat)⌋

/-- Source `const gridMaxX = Math.ceil(bbox.east / 0.01)`. -/
def gridMaxX (b : BBox) : Int := ⌈b.east / (0.01 : Rat)⌉

/-- Source `const gridMinY = Math.floor(bbox.south / 0.01)`. -/
def gridMinY (b : BBox) : Int := ⌊b.south / (0.01 : Rat)⌋

/-- Source `const gridMaxY = Math.ceil(bbox.north / 0.01)`. -/
def gridMaxY (b : BBox) : Int := ⌈b.north / (0.01 : Rat)⌉

/-- The geometry the `filtered_locations` CTE selects: the `geometry_simple`
column in fast/balanced mode, the full `geometry` column in accurate mode. -/
def geomCol (m : Mode) (r : LocationRow) : Geometry :=
  if useSimplified m then r.geometrySimple else r.geometry

/-- Grid-cell range check of the `WHERE` clause. -/
def gridPass (r : LocationRow) (b : BBox) : Bool :=
  decide (gridMinX b ≤ r.gridX ∧ r.gridX ≤ gridMaxX b ∧
          gridMinY b ≤ r.gridY ∧ r.gridY ≤ gridMaxY b)

/-- Bounding-box overlap check of the `WHERE` clause
(`bbox_minx <= east AND bbox_maxx >= west AND bbox_miny <= north AND bbox_maxy >= south`). -/
def bboxPass (r : LocationRow) (b : BBox) : Bool :=
  decide (r.bboxMinx ≤ b.east ∧ b.west ≤ r.bboxMaxx ∧
          r.bboxMiny ≤ b.north ∧ b.south ≤ r.bboxMaxy)

/-- The full three-stage `WHERE` clause of `filtered_locations`. -/
def filterPass (m : Mode) (r : LocationRow) (b : BBox) : Bool :=
  gridPass r b && bboxPass r b && stIntersectsBox (geomCol m r) b

/-- The `filtered_locations` CTE: the mode-selected geometries of all rows
passing the staged filter. -/
def filteredLocations (m : Mode) (rows : List LocationRow) (b : BBox) : List Geometry :=
  (rows.filter (filterPass m · b)).map (geomCol m)

/-! ## The spatial engine

The geometry-producing `ST_` functions of the DuckDB spatial extension are
external library code. They are modelled as an abstract record of operations
over an abstract geometry type `G`; `ST_Union_Agg`/`ST_Difference` may raise a
topology exception, modelled as `Except`. -/

/-- An error raised by a geometric engine operation (e.g. a
`TopologyException` on degenerate or self-intersecting input). -/
inductive EngineError where
  | topology
  | generic (msg : String)
deriving Repr, DecidableEq

/-- The engine operations `calculateZones`' SQL uses. -/
structure SpatialEngine (G : Type) where
  makeEnvelope : BBox → G
  emptyPolygon : G
  buffer : Geometry → Rat → G
  unionOp : G → G → Except EngineError G
  difference : G → G → Except EngineError G
  simplifyGeom : G → Rat → G
  asGeoJSON : G → String

/-- SQL aggregate semantics of `ST_Union_Agg`: `NULL` (`none`) over zero rows,
otherwise the fold of the binary union. -/
def unionAgg {G : Type} (eng : SpatialEngine G) : List G → Except EngineError (Option G)
  | [] => .ok none
  | g :: gs => (gs.foldlM eng.unionOp g).map some

/-- The `final_zones` CTE applies `ST_Simplify(·, simplifyFactor)` only when
`simplifyFactor > 0`. -/
def applyFinalSimplify {G : Type} (eng : SpatialEngine G) (factor : Rat) (g : G) : G :=
  if 0 < factor then eng.simplifyGeom g factor else g

/-- The single row the optimized zone query returns
(`restricted_json`, `eligible_json`, `location_count`), paired with the
geometry values the JSON strings serialize. -/
structure QueryRow (G : Type) where
  restrictedGeom : G
  restrictedJson : String
  eligibleGeom : G
  eligibleJson : String
  locationCount : Nat
deriving Repr, DecidableEq

/-- Evaluation of the optimized single-pass zone query of `calculateZones`:
`viewport` → `filtered_locations` → `buffers` → `restricted`
(`COALESCE(ST_Union_Agg(...), 'POLYGON EMPTY')` with `COUNT(*)`) → `eligible`
(`ST_Difference(viewport, restricted)`) → `final_zones` (optional
`ST_Simplify`) → GeoJSON output row. -/
def runZoneQuery {G : Type} (eng : SpatialEngine G) (rows : List LocationRow)
    (m : Mode) (b : BBox) (bufferDeg : Rat) : Except EngineError (QueryRow G) := do
  let bounds := eng.makeEnvelope b
  let locs := filteredLocations m rows b
  let buffers := locs.map (eng.buffer · bufferDeg)
  let unioned ← unionAgg eng buffers
  let restricted := unioned.getD eng.emptyPolygon
  let locationCount := buffers.length
  let eligible ← eng.difference bounds restricted
  let factor := simplifyFactor m
  let restrictedArea := applyFinalSimplify eng factor restricted
  let eligibleArea := applyFinalSimplify eng factor eligible
  pure ⟨restrictedArea, eng.asGeoJSON restrictedArea,
        eligibleArea, eng.asGeoJSON eligibleArea, locationCount⟩

/-! ## `calculateZones` -/

/-- The value of `abortSignal.aborted` as sampled at the three cooperative
cancellation checkpoints of `calculateZones`: before any work (line 649),
immediately before the expensive query (line 699), and immediately after the
query resolves (line 776). In the browser's single-threaded event loop the
flag can only change while the query is awaited, so these three samples
capture every observable firing of the signal. -/
structure AbortProbe where
  atStart : Bool
  beforeQuery : Bool
  afterQuery : Bool
deriving Repr, DecidableEq

/-- Source `abortSignal?.aborted` for an optional signal. -/
def probe (sig : Option AbortProbe) (f : AbortProbe → Bool) : Bool :=
  (sig.map f).getD false

/-- The distinct failure outcomes a `calculateZones` call can throw:
the fail-fast `Database not initialized` error, the `AbortError`-named
cancellation error, and a rethrown engine error. -/
inductive ZoneError where
  | notInitialized
  | aborted
  | engine (e : EngineError)
deriving Repr, DecidableEq

/-- A GeoJSON `Feature` wrapper as built by `calculateZones`
(`properties: { type: 'restricted' | 'eligible' }`). -/
structure Feature (G : Type) where
  geometry : G
  featureType : String
deriving Repr, DecidableEq

/-- The successful result of `calculateZones`: the two nullable
`FeatureCollection`s and `stats.locationCount` (`processingTime`, wall-clock
time, is not modelled). -/
structure ZoneCalcOk (G : Type) where
  restrictedZones : Option (Feature G)
  eligibleZones : Option (Feature G)
  locationCount : Nat
deriving Repr, DecidableEq

/-- JavaScript truthiness of the string fields guarding
`if (data && data.restricted_json)`. -/
def truthyString (s : String) : Bool := s ≠ ""

/-- Source `DuckDBSpatialService.calculateZones`: fail fast when the connection is
missing; abort checks before starting, before the expensive query, and after
it; the single optimized query; result assembly. Errors inside the `try`
block are logged and rethrown unchanged. -/
def calculateZones {G : Type} (eng : SpatialEngine G) (conn : Bool)
    (rows : List LocationRow) (bufferDistance : Rat) (mapBounds : BBox)
    (m : Mode) (sig : Option AbortProbe) : Except ZoneError (ZoneCalcOk G) :=
  if conn = false then .error .notInitialized
  else if probe sig AbortProbe.atStart then .error .aborted
  else
    let bufferInDegrees := bufferDistance / 111000
    if probe sig AbortProbe.beforeQuery then .error .aborted
    else
      match runZoneQuery eng rows m mapBounds bufferInDegrees with
      | .error e => .error (.engine e)
      | .ok row =>
        if probe sig AbortProbe.afterQuery then .error .aborted
        else
          .ok { restrictedZones :=
                  if truthyString row.restrictedJson then
                    some ⟨row.restrictedGeom, "restricted"⟩
                  else none
                eligibleZones :=
                  if truthyString row.eligibleJson then
                    some ⟨row.eligibleGeom, "eligible"⟩
                  else none
                locationCount := row.locationCount }

/-! ## Call-site concurrency guard (`AutoCalculator.handleCalculateZones`)

The component keeps `isCalculatingRef` and `abortControllerRef`; a request
first cancels any existing controller, then — if a calculation is still in
flight — skips, otherwise creates a fresh controller and starts. -/

/-- The mutable refs of `AutoCalculator` relevant to the concurrency policy,
plus the set of controllers whose `abort()` has been invoked. -/
structure CalcState where
  isCalculating : Bool
  controller : Option Nat
  abortedControllers : List Nat
deriving Repr, DecidableEq

/-- What a single `handleCalculateZones` invocation does. -/
inductive CalcAction where
  | skippedZoom
  | skippedNoData
  | skippedBusy
  | started (controller : Nat)
deriving Repr, DecidableEq

/-- The synchronous guard logic of `handleCalculateZones` (AutoCalculator):
zoom guard, data/bounds guard, cancel-existing, busy skip, start.
`freshId` is the identity of the `new AbortController()` a started
calculation would use. -/
def handleCalculateZonesStep (s : CalcState) (zoom : Int) (hasData : Bool)
    (hasBounds : Bool) (freshId : Nat) : CalcState × CalcAction :=
  if zoom < 15 then (s, .skippedZoom)
  else if !hasData || !hasBounds then (s, .skippedNoData)
  else
    let s1 : CalcState :=
      match s.controller with
      | some c => { s with controller := none, abortedControllers := c :: s.abortedControllers }
      | none => s
    if s1.isCalculating then (s1, .skippedBusy)
    else ({ s1 with controller := some freshId, isCalculating := true }, .started freshId)

/-! ## `repairGeometry`

The repair chain runs SQL queries whose individual success or failure is
engine behaviour; each repair operation is modelled as `Option String`
(`none` = the query threw). `ST_IsValid` on an already-parsed geometry is
modelled as total. -/

/-- The engine operations `repairGeometry` invokes. -/
structure RepairEngine where
  isValid : String → Bool
  makeValid : String → Option String
  bufferZero : String → Option String
  reducePrecision : String → Option String

/-- The `spatialCapabilities` flags probed by `checkSpatialCapabilities`. -/
structure Capabilities where
  hasMakeValid : Bool
  hasReducePrecision : Bool
  hasSimplifyPreserveTopology : Bool
deriving Repr, DecidableEq

/-- Source `DuckDBSpatialService.repairGeometry`: returns the geometry unchanged if
valid; otherwise tries `ST_MakeValid` (only if the capability probe found it),
then `ST_Buffer(·, 0)`, then `ST_ReducePrecision` (only if available),
returning the first repair that succeeds, and `null` if everything failed.
All failures are absorbed; nothing is thrown. -/
def repairGeometry (eng : RepairEngine) (caps : Capabilities) (conn : Bool)
    (wkt : String) : Option String :=
  if conn = false then none
  else if eng.isValid wkt then some wkt
  else
    match (if caps.hasMakeValid then eng.makeValid wkt else none) with
    | some repaired => some repaired
    | none =>
      match eng.bufferZero wkt with
      | some repaired => some repaired
      | none =>
        match (if caps.hasReducePrecision then eng.reducePrecision wkt else none) with
        | some repaired => some repaired
        | none => none

/-- Modelled from the spec's wording of the repair chain (§4.1): the ordered
attempt list — validity-repair function where supported, zero-distance
buffer, precision reduction where supported — of which the first success is
returned. Used to state the refinement theorem for the repair chain. -/
def repairAttempts (eng : RepairEngine) (caps : Capabilities) (wkt : String) :
    List (Option String) :=
  [if caps.hasMakeValid then eng.makeValid wkt else none,
   eng.bufferZero wkt,
   if caps.hasReducePrecision then eng.reducePrecision wkt else none]

/-! ## `searchLocations` -/

/-- Wildcard helper for the percent sign: does `matchRest` accept some suffix of the string? -/
def likeStar (matchRest : List Char → Bool) : List Char → Bool
  | [] => matchRest []
  | c :: t => matchRest (c :: t) || likeStar matchRest t

/-- SQL `LIKE` pattern matching (`%` matches any sequence, `_` any single
character), on character lists. -/
def likeChars : List Char → List Char → Bool
  | [], s => s.isEmpty
  | '%' :: ps, s => likeStar (likeChars ps) s
  | '_' :: ps, s =>
    match s with
    | [] => false
    | _ :: t => likeChars ps t
  | p :: ps, s =>
    match s with
    | [] => false
    | c :: t => p = c && likeChars ps t

/-- SQL `LIKE` on strings. -/
def likeMatch (pat s : String) : Bool := likeChars pat.data s.data

/-- The `ORDER BY CASE` rank: 0 for an exact (lower-cased) match, 1 for a
`LIKE 'query%'` match, 2 otherwise; rows with a `NULL` name never reach the
ordering (the `WHERE` clause filters them out). -/
def searchRank (q : String) (r : LocationRow) : Nat :=
  match r.name with
  | some n => if n.toLower = q then 0 else if likeMatch (q ++ "%") n.toLower then 1 else 2
  | none => 2

/-- The sort key order of `ORDER BY CASE ... END, name`. -/
def searchLE (q : String) (a b : LocationRow) : Prop :=
  searchRank q a < searchRank q b ∨
    (searchRank q a = searchRank q b ∧ a.name.getD ("") ≤ b.name.getD (""))

instance (q : String) : DecidableRel (searchLE q) := fun a b => by
  unfold searchLE; infer_instance

/-- One row of the `searchLocations` result. -/
structure SearchResult where
  id : Nat
  osmId : Int
  name : Option String
  ty : String
  lat : Rat
  lon : Rat
  tags : Tags
deriving Repr, DecidableEq

/-- The row mapping of `searchLocations`' result processing (centroid
latitude/longitude via `ST_Y(ST_Centroid(geometry))` / `ST_X(...)`). -/
def toSearchResult (r : LocationRow) : SearchResult :=
  ⟨r.id, r.osmId, r.name, r.ty, (stCentroid r.geometry).y, (stCentroid r.geometry).x, r.tags⟩

/-- The `WHERE LOWER(name) LIKE '%searchQuery%'` test (a `NULL` name matches
nothing). -/
def searchMatches (q : String) (r : LocationRow) : Bool :=
  match r.name with
  | some n => likeMatch ("%" ++ q ++ "%") n.toLower
  | none => false

/-- Source `DuckDBSpatialService.searchLocations`: fail fast without a connection;
lower-case and trim the query, return `[]` for an empty query; run the
`LIKE`-filtered, `CASE`-ranked, name-ordered, `LIMIT`-capped query; on any
internal query error (`queryFault`), catch it and return `[]`. -/
def searchLocations (conn : Bool) (rows : List LocationRow) (queryFault : Bool)
    (query : String) (lim : Nat) : Except String (List SearchResult) :=
  if conn = false then .error ("Database not initialized")
  else
    let searchQuery := query.toLower.trim
    if searchQuery = "" then .ok []
    else if queryFault then .ok []
    else
      let matched := rows.filter (searchMatches searchQuery)
      let sorted := matched.insertionSort (searchLE searchQuery)
      .ok ((sorted.take lim).map toSearchResult)

/-- The row pipeline of a non-degenerate search: filter, rank-and-name sort,
limit (the row list underlying the result of `searchLocations`). -/
def searchRows (rows : List LocationRow) (q : String) (lim : Nat) : List LocationRow :=
  ((rows.filter (searchMatches q)).insertionSort (searchLE q)).take lim

/-! ## A symbolic engine instance

Used to evaluate `calculateZones` at concrete inputs: geometric results are
kept as uninterpreted terms, except that the engine satisfies the GEOS laws
`g − ∅ = g` and `simplify(envelope) = envelope`, and serializes every
geometry to a non-empty JSON string — as the DuckDB spatial extension does. -/

/-- Symbolic geometry values for concrete evaluation. -/
inductive SymGeom where
  | envOf (b : BBox)
  | empty
  | buf (g : Geometry) (d : Rat)
  | unionS (a b : SymGeom)
  | diffS (a b : SymGeom)
  | simpS (g : SymGeom) (t : Rat)
deriving Repr, DecidableEq

/-- The symbolic engine. -/
def symEngine : SpatialEngine SymGeom where
  makeEnvelope := .envOf
  emptyPolygon := .empty
  buffer := .buf
  unionOp a b := .ok (.unionS a b)
  difference a b := .ok (match b with | .empty => a | _ => .diffS a b)
  simplifyGeom g t := match g with | .envOf bb => .envOf bb | _ => .simpS g t
  asGeoJSON _ := "geojson"

/-- The symbolic engine with a union/difference step that raises a
`TopologyException`. -/
def topologyFailEngine : SpatialEngine SymGeom :=
  { symEngine with difference := fun _ _ => .error .topology }

/-- A concrete Berlin-area viewport. -/
def vp0 : BBox := ⟨13.40, 52.51, 13.41, 52.52⟩

/-! Theorems -/

/-! ### C7 — category classification (`getLocationType`) -/

/-- C7, counterexample. The claim includes `fitness_centre` in the closed
category set and asserts every member is producible by some tag set; but
`getLocationType` has no `fitness_centre` rule, so no tag set produces it. -/
theorem C7_counterexample : ¬ ∃ t : Tags, getLocationType t = "fitness_centre" := by
  rintro ⟨t, h⟩
  unfold getLocationType at h
  split_ifs at h <;> simp_all

/-- C7, amended. Every derived category lies in the closed six-element set
{school, kindergarten, playground, community_centre, sports_centre, other}
(`fitness_centre` is not among them); each member of that set is producible by
a concrete tag set; unmatched tag sets map to `other`; the first matching rule
wins (a tag set matching both the school rule and the playground rule is
classified `school`). -/
theorem C7_category_closed_set :
    (∀ t : Tags,
      getLocationType t ∈ (["school", "kindergarten", "playground",
        "community_centre", "sports_centre", "other"] : List String)) ∧
    getLocationType ⟨some ("school"), none, none⟩ = "school" ∧
    getLocationType ⟨some ("kindergarten"), none, none⟩ = "kindergarten" ∧
    getLocationType ⟨none, some ("playground"), none⟩ = "playground" ∧
    getLocationType ⟨some ("community_centre"), none, none⟩ = "community_centre" ∧
    getLocationType ⟨none, some ("sports_centre"), none⟩ = "sports_centre" ∧
    getLocationType ⟨none, none, none⟩ = "other" ∧
    getLocationType ⟨some ("school"), some ("playground"), none⟩ = "school" := by
  refine ⟨fun t => ?_, rfl, rfl, rfl, rfl, rfl, rfl, rfl⟩
  unfold getLocationType
  split_ifs <;> simp

/-! ### C8 — mode-dependent geometry fidelity and simplification -/

/-- C8. Fast and balanced modes operate on the precomputed simplified
geometry column while accurate mode operates on the full-precision geometry;
the post-simplification tolerance is strictly coarser for fast (0.001) than
for balanced (0.0001), and accurate mode applies no post-simplification
(`applyFinalSimplify` is the identity because its factor is 0). -/
theorem C8_mode_selection :
    (∀ r : LocationRow, geomCol .fast r = r.geometrySimple) ∧
    (∀ r : LocationRow, geomCol .balanced r = r.geometrySimple) ∧
    (∀ r : LocationRow, geomCol .accurate r = r.geometry) ∧
    geometryColumn .fast = "geometry_simple" ∧
    geometryColumn .balanced = "geometry_simple" ∧
    geometryColumn .accurate = "geometry" ∧
    simplifyFactor .balanced < simplifyFactor .fast ∧
    0 < simplifyFactor .balanced ∧
    simplifyFactor .accurate = 0 ∧
    (∀ (G : Type) (eng : SpatialEngine G) (g : G),
      applyFinalSimplify eng (simplifyFactor .accurate) g = g) ∧
    (∀ (G : Type) (eng : SpatialEngine G) (g : G),
      applyFinalSimplify eng (simplifyFactor .fast) g = eng.simplifyGeom g (0.001 : Rat)) ∧
    (∀ (G : Type) (eng : SpatialEngine G) (g : G),
      applyFinalSimplify eng (simplifyFactor .balanced) g = eng.simplifyGeom g (0.0001 : Rat)) := by
  refine ⟨fun r => rfl, fun r => rfl, fun r => rfl, rfl, rfl, rfl,
    of_decide_eq_true (by with_unfolding_all rfl),
    of_decide_eq_true (by with_unfolding_all rfl), rfl,
    fun G eng g => rfl, ?_, ?_⟩
  · intro G eng g
    have h : (0 : Rat) < simplifyFactor .fast :=
      of_decide_eq_true (by with_unfolding_all rfl)
    rw [applyFinalSimplify, if_pos h]
    rfl
  · intro G eng g
    have h : (0 : Rat) < simplifyFactor .balanced :=
      of_decide_eq_true (by with_unfolding_all rfl)
    rw [applyFinalSimplify, if_pos h]
    rfl

/-! ### C6 — `repairGeometry` repair chain -/

/-- C6. On an initialized connection, `repairGeometry` returns a valid
geometry unchanged; for an invalid geometry it returns exactly the first
success of the ordered attempt list — `ST_MakeValid` where the capability
probe found it, then the zero-distance buffer, then precision reduction where
available — and `none` when every attempt fails. The return type is `Option`:
no failure escapes as an exception. -/
theorem C6_repair_chain :
    ∀ (eng : RepairEngine) (caps : Capabilities) (w : String),
      (eng.isValid w = true → repairGeometry eng caps true w = some w) ∧
      (eng.isValid w = false →
        repairGeometry eng caps true w = (repairAttempts eng caps w).findSome? id) := by
  intro eng caps w
  constructor
  · intro h
    simp [repairGeometry, h]
  · intro h
    unfold repairGeometry repairAttempts
    simp only [h, Bool.false_eq_true, if_false]
    rcases hm : (if caps.hasMakeValid then eng.makeValid w else none) with _ | r
    · rcases hb : eng.bufferZero w with _ | r
      · rcases hr : (if caps.hasReducePrecision then eng.reducePrecision w else none) with _ | r
        · simp [hm, hb, hr, List.findSome?]
        · simp [hm, hb, hr, List.findSome?]
      · simp [hm, hb, List.findSome?]
    · simp [hm, List.findSome?]

/-- A repair engine for which the validity check fails, `ST_MakeValid` throws,
and the zero-distance buffer succeeds. -/
def repairEngW : RepairEngine :=
  { isValid := fun _ => false
    makeValid := fun _ => none
    bufferZero := fun s => some (s ++ "#buffered")
    reducePrecision := fun _ => none }

/-- Capability set with `ST_MakeValid` available but `ST_ReducePrecision`
missing. -/
def capsW : Capabilities := ⟨true, false, true⟩

/-- C6, witness. The repair chain evaluated on a concrete invalid
geometry: the zero-distance buffer result is returned. -/
theorem C6_repair_chain_witness :
    repairGeometry repairEngW capsW true ("POLYGON((0 0,1 1,1 0,0 1,0 0))") =
      (repairAttempts repairEngW capsW ("POLYGON((0 0,1 1,1 0,0 1,0 0))")).findSome? id :=
  (C6_repair_chain repairEngW capsW ("POLYGON((0 0,1 1,1 0,0 1,0 0))")).2 rfl

/-! ### C3 — one calculation in flight, cancellation of the prior one -/

/-- C3, counterexample. A request arriving while a calculation is in
flight (`isCalculating = true`, live controller `0`) does abort the prior
controller, but is itself skipped (`skippedBusy`): the new calculation never
starts, so the most recent viewport/buffer/mode request is *not* the one whose
result is delivered — refuting the claim that the new one starts after the
prior is cancelled. -/
theorem C3_counterexample :
    handleCalculateZonesStep ⟨true, some 0, []⟩ 16 true true 1 =
      (⟨true, none, [0]⟩, CalcAction.skippedBusy) ∧
    (handleCalculateZonesStep ⟨true, some 0, []⟩ 16 true true 1).2 ≠
      CalcAction.started 1 := by
  constructor <;> decide

/-- C3, amended. When a request passes the zoom and data guards while a
calculation is in flight, the prior controller is actively aborted and the
request is skipped — no new calculation starts (so no stale result can be
delivered, but the newest request is dropped rather than run). Conversely, a
calculation only ever starts from an idle state, and starting marks the state
in-flight with the fresh controller — at most one calculation is in flight. -/
theorem C3_busy_request_aborts_and_skips :
    (∀ (s : CalcState) (zoom : Int) (hasData hasBounds : Bool) (freshId c : Nat),
      15 ≤ zoom → hasData = true → hasBounds = true →
      s.isCalculating = true → s.controller = some c →
      handleCalculateZonesStep s zoom hasData hasBounds freshId =
        ({ isCalculating := true, controller := none,
           abortedControllers := c :: s.abortedControllers }, .skippedBusy)) ∧
    (∀ (s : CalcState) (zoom : Int) (hasData hasBounds : Bool) (freshId : Nat),
      (handleCalculateZonesStep s zoom hasData hasBounds freshId).2 = .started freshId →
        s.isCalculating = false ∧
        (handleCalculateZonesStep s zoom hasData hasBounds freshId).1.isCalculating = true ∧
        (handleCalculateZonesStep s zoom hasData hasBounds freshId).1.controller = some freshId) := by
  constructor
  · rintro ⟨sCalc, sCtl, sAb⟩ zoom hasData hasBounds freshId c hz hd hb hcalc hctl
    simp only at hcalc hctl
    subst hcalc hd hb hctl
    simp [handleCalculateZonesStep, not_lt.mpr hz]
  · rintro ⟨sCalc, sCtl, sAb⟩ zoom hasData hasBounds freshId
    unfold handleCalculateZonesStep
    rcases sCalc <;> rcases sCtl with _ | c <;> split_ifs <;> simp_all

/-- C3, witness. A concrete busy-state request: prior controller 7 is
aborted and recorded, the request itself is skipped. -/
theorem C3_busy_request_witness :
    handleCalculateZonesStep ⟨true, some 7, []⟩ 15 true true 3 =
      ({ isCalculating := true, controller := none,
         abortedControllers := [7] }, .skippedBusy) :=
  C3_busy_request_aborts_and_skips.1 ⟨true, some 7, []⟩ 15 true true 3 7
    (by decide) rfl rfl rfl rfl

/-! ### C5 — cooperative cancellation in `calculateZones` -/

/-- C5. `calculateZones` samples the cancellation signal before starting
(line 649), before the expensive query (line 699), and after it (line 776).
If the signal is aborted at either pre-query checkpoint the call yields the
`AbortError`-shaped cancellation outcome (a `ZoneError` constructor distinct
from `notInitialized` and from rethrown engine errors) without running the
query; if it is aborted at the post-query checkpoint and the query succeeded,
the call still yields the cancellation outcome; and whenever the signal is
aborted by the post-query checkpoint the call never returns a successful (or
partial) result. -/
theorem C5_cooperative_cancellation :
    ∀ (G : Type) (eng : SpatialEngine G) (rows : List LocationRow)
      (d : Rat) (b : BBox) (m : Mode) (s : AbortProbe),
      ((s.atStart = true ∨ s.beforeQuery = true) →
        calculateZones eng true rows d b m (some s) = .error .aborted) ∧
      (s.afterQuery = true →
        ∀ q, runZoneQuery eng rows m b (d / 111000) = .ok q →
          calculateZones eng true rows d b m (some s) = .error .aborted) ∧
      (s.afterQuery = true →
        ∀ r, calculateZones eng true rows d b m (some s) ≠ .ok r) := by
  intro G eng rows d b m s
  obtain ⟨a1, a2, a3⟩ := s
  refine ⟨?_, ?_, ?_⟩
  · rintro (h | h) <;> subst h
    · simp [calculateZones, probe]
    · cases a1 <;> simp [calculateZones, probe]
  · intro h3 q hq
    subst h3
    cases a1 <;> cases a2 <;> simp [calculateZones, probe, hq]
  · intro h3 r
    subst h3
    cases a1 <;> cases a2 <;>
      cases hq : runZoneQuery eng rows m b (d / 111000) <;>
        simp [calculateZones, probe, hq]

/-- C5, witness. Cancelling before a concrete call yields the cancellation
outcome. -/
theorem C5_cancellation_witness :
    calculateZones symEngine true [] 200 vp0 .accurate (some ⟨true, true, true⟩) =
      .error .aborted :=
  (C5_cooperative_cancellation SymGeom symEngine [] 200 vp0 .accurate
    ⟨true, true, true⟩).1 (Or.inl rfl)

/-! ### C2 — topology failure during union/difference -/

/-- C2, counterexample. With an engine whose difference step raises a
topology error, a concrete `calculateZones` call rejects with that error —
the exception propagates to the caller; there is no `fallbackUsed` result
(the result type of `calculateZones` has no such field). -/
theorem C2_counterexample :
    calculateZones topologyFailEngine true [] 200 vp0 .accurate none =
      .error (.engine .topology) := by rfl

/-- C2, amended. When the union/difference step of the optimized query
raises an engine error, `calculateZones` does not absorb it into a typed
fallback result: the `catch` block logs and rethrows, so the call rejects
with exactly that engine error. -/
theorem C2_engine_error_propagates :
    ∀ (G : Type) (eng : SpatialEngine G) (rows : List LocationRow)
      (d : Rat) (b : BBox) (m : Mode) (e : EngineError),
      runZoneQuery eng rows m b (d / 111000) = .error e →
      calculateZones eng true rows d b m none = .error (.engine e) := by
  intro G eng rows d b m e h
  simp [calculateZones, probe, h]

/-- C2, witness. The propagation theorem applied to the concrete
topology-failing engine. -/
theorem C2_engine_error_witness :
    calculateZones topologyFailEngine true [] 150 vp0 .balanced none =
      .error (.engine .topology) :=
  C2_engine_error_propagates SymGeom topologyFailEngine [] 150 vp0 .balanced
    .topology rfl

/-! ### C1 — zero matching locations -/

/-- C1, counterexample. With zero stored locations and a non-empty
viewport, the concrete result has `locationCount = 0` and an eligible area
equal to the full viewport envelope — but `restrictedZones` is *not* null:
the SQL `COALESCE(..., ST_GeomFromText('POLYGON EMPTY'))` yields the empty
polygon, `ST_AsGeoJSON` serializes it to a non-empty string, and the truthy
check then wraps it in a (non-null) FeatureCollection. -/
theorem C1_counterexample :
    calculateZones symEngine true [] 200 vp0 .accurate none =
      .ok { restrictedZones := some ⟨SymGeom.empty, "restricted"⟩,
            eligibleZones := some ⟨SymGeom.envOf vp0, "eligible"⟩,
            locationCount := 0 } ∧
    (calculateZones symEngine true [] 200 vp0 .accurate none).toOption.bind
        ZoneCalcOk.restrictedZones ≠ none := by
  refine ⟨rfl, ?_⟩
  intro h
  exact Option.noConfusion h

/-- C1, amended. For every engine satisfying the GEOS laws
`g − ∅ = g` and `simplify(envelope) = envelope` and serializing every geometry
to a non-empty JSON string, a `calculateZones` call under which zero stored
locations pass the viewport filter returns `locationCount = 0`, an eligible
area equal to the full viewport envelope, and a restricted area that is a
non-null FeatureCollection wrapping the (possibly simplified) empty polygon —
rather than a null restricted area. -/
theorem C1_zero_matches :
    ∀ (G : Type) (eng : SpatialEngine G) (rows : List LocationRow)
      (d : Rat) (b : BBox) (m : Mode),
      filteredLocations m rows b = [] →
      eng.difference (eng.makeEnvelope b) eng.emptyPolygon = .ok (eng.makeEnvelope b) →
      (∀ t, eng.simplifyGeom (eng.makeEnvelope b) t = eng.makeEnvelope b) →
      (∀ g, eng.asGeoJSON g ≠ "") →
      calculateZones eng true rows d b m none =
        .ok { restrictedZones :=
                some ⟨applyFinalSimplify eng (simplifyFactor m) eng.emptyPolygon,
                      "restricted"⟩,
              eligibleZones := some ⟨eng.makeEnvelope b, "eligible"⟩,
              locationCount := 0 } := by
  intro G eng rows d b m hfilter hdiff hsimp hjson
  have henv : applyFinalSimplify eng (simplifyFactor m) (eng.makeEnvelope b) =
      eng.makeEnvelope b := by
    unfold applyFinalSimplify
    split_ifs with h
    · exact hsimp _
    · rfl
  have hq : runZoneQuery eng rows m b (d / 111000) =
      .ok ⟨applyFinalSimplify eng (simplifyFactor m) eng.emptyPolygon,
           eng.asGeoJSON (applyFinalSimplify eng (simplifyFactor m) eng.emptyPolygon),
           eng.makeEnvelope b,
           eng.asGeoJSON (eng.makeEnvelope b), 0⟩ := by
    unfold runZoneQuery
    rw [hfilter]
    simp [unionAgg, hdiff, henv, Except.bind, bind, Except.map, Functor.map, pure, Except.pure]
  have ht : ∀ g, truthyString (eng.asGeoJSON g) = true :=
    fun g => decide_eq_true (hjson g)
  simp [calculateZones, probe, hq, ht]

/-- C1, witness. The amended statement evaluated with the symbolic engine
on an empty store and a concrete viewport in balanced mode. -/
theorem C1_zero_matches_witness :
    calculateZones symEngine true [] 200 vp0 .balanced none =
      .ok { restrictedZones :=
              some ⟨applyFinalSimplify symEngine (simplifyFactor .balanced)
                      symEngine.emptyPolygon, "restricted"⟩,
            eligibleZones := some ⟨symEngine.makeEnvelope vp0, "eligible"⟩,
            locationCount := 0 } :=
  C1_zero_matches SymGeom symEngine [] 200 vp0 .balanced rfl rfl
    (fun _ => rfl) (fun g => by simp [symEngine])

/-! ### C4 — completeness of the staged viewport filter -/

/-- A small viewport near the origin. -/
def vpC4 : BBox := ⟨0, -0.001, 0.005, 0.001⟩

/-- Two untagged nodes and one tagged way spanning them: after ingestion this
is a single linestring location from (0,0) to (1,0). -/
def c4elements : List OSMElement :=
  [.node ⟨1, 0, 0, none⟩,
   .node ⟨2, 0, 1, none⟩,
   .way ⟨10, [1, 2], some ⟨none, some ("playground"), some ("P")⟩⟩]

/-- The stored rows for `c4elements` (the engine's `ST_Simplify(·, 0.0001)` is
instantiated with the identity — irrelevant here, since accurate mode reads the
full-precision `geometry` column). -/
def c4rows : List LocationRow := (loadOSMData c4elements).map (toLocationRow id)

/-- C4, counterexample. The stored linestring location from (0,0) to (1,0)
intersects the viewport `vpC4` exactly (and its bounding box overlaps it), yet
the staged filter returns no candidates: the location's grid cell is that of
its *centroid* (cell x = 50), which lies outside the viewport's grid range
(x ∈ [0, 1]) — so the query does not return all locations intersecting the
viewport. -/
theorem C4_counterexample :
    c4rows.all
        (fun r => stIntersectsBox (geomCol .accurate r) vpC4 && bboxPass r vpC4) = true ∧
    c4rows.length = 1 ∧
    c4rows.all (fun r => gridPass r vpC4 = false) = true ∧
    filteredLocations .accurate c4rows vpC4 = [] := by
  refine ⟨?_, ?_, ?_, ?_⟩ <;> exact of_decide_eq_true (by with_unfolding_all rfl)

/-- C4, amended. The staged filter is complete for *point* locations in
accurate mode: every ingested point location whose coordinate lies in the
viewport passes all three stages (its centroid is the point itself, so its
grid cell lies inside the viewport's grid range; its bounding box is the
point; and the exact test is exactly point-in-box). Non-point locations
intersecting the viewport can be excluded when their centroid's grid cell
falls outside the viewport's grid range, as the counterexample shows. -/
theorem C4_point_locations_included :
    ∀ (r : InsertRow) (simp0001 : Geometry → Geometry) (b : BBox) (c : Coord),
      r.geometry = .point c →
      pointInBox c b = true →
      filterPass .accurate (toLocationRow simp0001 r) b = true := by
  intro r simp0001 b c hg hin
  obtain ⟨h1, h2, h3, h4⟩ := of_decide_eq_true hin
  have h001 : (0 : Rat) < 0.01 := of_decide_eq_true (by with_unfolding_all rfl)
  have hgrid : gridPass (toLocationRow simp0001 r) b = true := by
    apply decide_eq_true
    unfold toLocationRow gridMinX gridMaxX gridMinY gridMaxY
    rw [hg]
    show ⌊b.west / (0.01 : Rat)⌋ ≤ ⌊c.x / (0.01 : Rat)⌋ ∧
         ⌊c.x / (0.01 : Rat)⌋ ≤ ⌈b.east / (0.01 : Rat)⌉ ∧
         ⌊b.south / (0.01 : Rat)⌋ ≤ ⌊c.y / (0.01 : Rat)⌋ ∧
         ⌊c.y / (0.01 : Rat)⌋ ≤ ⌈b.north / (0.01 : Rat)⌉
    refine ⟨Int.floor_le_floor ((div_le_div_iff_of_pos_right h001).mpr h1),
            le_trans (Int.floor_le_floor ((div_le_div_iff_of_pos_right h001).mpr h2))
              (Int.floor_le_ceil _),
            Int.floor_le_floor ((div_le_div_iff_of_pos_right h001).mpr h3),
            le_trans (Int.floor_le_floor ((div_le_div_iff_of_pos_right h001).mpr h4))
              (Int.floor_le_ceil _)⟩
  have hbbox : bboxPass (toLocationRow simp0001 r) b = true := by
    apply decide_eq_true
    unfold toLocationRow
    rw [hg]
    show stXMin (.point c) ≤ b.east ∧ b.west ≤ stXMax (.point c) ∧
         stYMin (.point c) ≤ b.north ∧ b.south ≤ stYMax (.point c)
    simp only [stXMin, stXMax, stYMin, stYMax, Geometry.coords, List.map, minList, maxList,
      List.foldl]
    exact ⟨h2, h1, h4, h3⟩
  have hint : stIntersectsBox (geomCol .accurate (toLocationRow simp0001 r)) b = true := by
    have : geomCol .accurate (toLocationRow simp0001 r) = .point c := by
      simp [geomCol, useSimplified, toLocationRow, hg]
    rw [this]
    exact hin
  simp [filterPass, hgrid, hbbox, hint]

/-- C4, witness. A concrete school point inside the Berlin viewport passes
the staged filter. -/
theorem C4_point_witness :
    filterPass .accurate
      (toLocationRow id
        ⟨1, 5, some ("S"), "school", ⟨some ("school"), none, some ("S")⟩,
         .point ⟨13.405, 52.52⟩⟩) vp0 = true :=
  C4_point_locations_included
    ⟨1, 5, some ("S"), "school", ⟨some ("school"), none, some ("S")⟩, .point ⟨13.405, 52.52⟩⟩
    id vp0 ⟨13.405, 52.52⟩ rfl (by with_unfolding_all rfl)

/-! ### C9 — name search -/

/-- Plain substring containment on character lists (some suffix of `s` has
`sub` as a prefix). Used only to state that a `LIKE` pattern with a wildcard
is not substring containment. -/
def containsSub (s sub : List Char) : Bool :=
  likeStar (fun t => sub.isPrefixOf t) s

instance (q : String) : IsTotal LocationRow (searchLE q) where
  total a b := by
    unfold searchLE
    rcases lt_trichotomy (searchRank q a) (searchRank q b) with h | h | h
    · exact Or.inl (Or.inl h)
    · rcases le_total (a.name.getD ("")) (b.name.getD ("")) with hn | hn
      · exact Or.inl (Or.inr ⟨h, hn⟩)
      · exact Or.inr (Or.inr ⟨h.symm, hn⟩)
    · exact Or.inr (Or.inl h)

instance (q : String) : IsTrans LocationRow (searchLE q) where
  trans a b c hab hbc := by
    unfold searchLE at hab hbc ⊢
    rcases hab with h1 | ⟨h1, h1n⟩ <;> rcases hbc with h2 | ⟨h2, h2n⟩
    · exact Or.inl (lt_trans h1 h2)
    · exact Or.inl (h2 ▸ h1)
    · exact Or.inl (h1 ▸ h2)
    · exact Or.inr ⟨h1.trans h2, le_trans h1n h2n⟩

/-- A stored row named "acb". -/
def c9row : LocationRow :=
  { id := 1, osmId := 11, name := some ("acb"), ty := "school",
    tags := ⟨some ("school"), none, some ("acb")⟩,
    geometry := .point ⟨13.4, 52.5⟩, geometrySimple := .point ⟨13.4, 52.5⟩,
    bboxMinx := 13.4, bboxMiny := 52.5, bboxMaxx := 13.4, bboxMaxy := 52.5,
    gridX := 1340, gridY := 5250 }

/-- C9, counterexample. Two failures of the claim as stated: (1) calling
the search before initialization *throws* the `Database not initialized`
error (the claim says it never throws); (2) the match is SQL `LIKE`, not
substring: the query `a%b` matches the stored name `acb` even though `a%b`
does not occur in `acb` as a substring. -/
theorem C9_counterexample :
    searchLocations false [] false ("park") 20 = .error ("Database not initialized") ∧
    searchLocations true [c9row] false ("a%b") 20 = .ok [toSearchResult c9row] ∧
    containsSub ("acb").data ("a%b").data = false := by
  refine ⟨rfl, ?_, ?_⟩ <;> exact of_decide_eq_true (by with_unfolding_all rfl)

/-- C9, amended. Once initialized, the search absorbs internal query
errors into `.ok []` and returns `.ok []` for a blank query; for a non-blank
query it returns exactly the `LIKE`-filtered rows (case-insensitive
containment in the SQL `LIKE` sense — plain substring when the query has no
wildcard), ordered by the exact > starts-with > other rank and then by name,
capped at `limit`, mapped to results carrying the centroid coordinates of
each row's geometry; every returned row is a stored row that matches. -/
theorem C9_search_properties :
    ∀ (rows : List LocationRow) (q : String) (lim : Nat),
      searchLocations true rows true q lim = .ok [] ∧
      (q.toLower.trim = "" → searchLocations true rows false q lim = .ok []) ∧
      (q.toLower.trim ≠ "" →
        searchLocations true rows false q lim =
          .ok ((searchRows rows q.toLower.trim lim).map toSearchResult)) ∧
      (searchRows rows q.toLower.trim lim).length ≤ lim ∧
      List.Sorted (searchLE q.toLower.trim) (searchRows rows q.toLower.trim lim) ∧
      (∀ r ∈ searchRows rows q.toLower.trim lim,
        r ∈ rows ∧ searchMatches q.toLower.trim r = true) := by
  intro rows q lim
  refine ⟨?_, ?_, ?_, ?_, ?_, ?_⟩
  · by_cases h : q.toLower.trim = "" <;> simp [searchLocations, h]
  · intro h; simp [searchLocations, h]
  · intro h; simp [searchLocations, h, searchRows]
  · exact List.length_take_le lim _
  · exact ((List.sorted_insertionSort (searchLE q.toLower.trim) _).sublist
      (List.take_sublist lim _))
  · intro r hr
    have hsort : r ∈ (rows.filter (searchMatches q.toLower.trim)).insertionSort
        (searchLE q.toLower.trim) := List.mem_of_mem_take hr
    have hfil : r ∈ rows.filter (searchMatches q.toLower.trim) :=
      (List.perm_insertionSort (searchLE q.toLower.trim) _).mem_iff.mp hsort
    exact ⟨(List.mem_filter.mp hfil).1, (List.mem_filter.mp hfil).2⟩

/-- C9, witness. The pipeline evaluated on one concrete row and a
non-blank query. -/
theorem C9_search_witness :
    searchLocations true [c9row] false ("Ac") 20 =
      .ok ((searchRows [c9row] "Ac".toLower.trim 20).map toSearchResult) :=
  (C9_search_properties [c9row] "Ac" 20).2.2.1 (by with_unfolding_all decide)

/-! ### C10 — way reference resolution in `loadOSMData` -/

/-- Dropping from the input exactly the elements on which `f` fails does not
change a `filterMap`. -/
theorem filterMap_of_filter_isSome {α β : Type} (f : α → Option β) (l : List α) :
    (l.filter fun a => (f a).isSome).filterMap f = l.filterMap f := by
  induction l with
  | nil => rfl
  | cons a l ih =>
    cases h : f a <;> simp [List.filter_cons, List.filterMap_cons, h, ih]

/-- C10. `loadOSMData`'s way handling: (1) the geometry decision is a
function of the resolved coordinate list alone; (2) node references that do
not resolve in the node index are silently dropped — removing them from the
way changes nothing; (3) a way with fewer than two resolvable vertices
produces no geometry and no row (the `Option` return shows no error is
raised); (4) any produced geometry is a polygon exactly when the *resolved*
list is closed and has at least four points, and a linestring otherwise. -/
theorem C10_way_resolution :
    ∀ (ns : List (Int × Coord)) (w : OSMWay),
      (processWay ns w = wayGeometryOfCoords (resolveWayCoords ns w)) ∧
      (processWay ns
          { w with nodeRefs := w.nodeRefs.filter fun i => (lookupNode ns i).isSome } =
        processWay ns w) ∧
      ((resolveWayCoords ns w).length < 2 →
        processWay ns w = none ∧ ∀ idv : Nat, elementRow ns (.way w) idv = none) ∧
      (∀ g, processWay ns w = some g →
        g = (if isClosedList (resolveWayCoords ns w) &&
                decide (4 ≤ (resolveWayCoords ns w).length)
             then .polygon (resolveWayCoords ns w)
             else .linestring (resolveWayCoords ns w))) := by
  intro ns w
  refine ⟨rfl, ?_, ?_, ?_⟩
  · unfold processWay resolveWayCoords
    simp only
    rw [filterMap_of_filter_isSome]
  · intro hlen
    have hn : ¬ 2 ≤ (resolveWayCoords ns w).length := by omega
    constructor
    · unfold processWay
      rw [if_neg hn]
    · intro idv
      cases htags : w.tags with
      | none => simp [elementRow, htags]
      | some t =>
        simp [elementRow, htags, processWay, hn]
  · intro g hg
    unfold processWay at hg
    by_cases h2 : 2 ≤ (resolveWayCoords ns w).length
    · rw [if_pos h2] at hg
      exact (Option.some.injEq _ _ ▸ hg).symm
    · rw [if_neg h2] at hg
      exact Option.noConfusion hg

/-- C10, witness. A way referencing one known and one unknown node
resolves to a single vertex and is skipped without error. -/
theorem C10_way_resolution_witness :
    elementRow [(5, ⟨1, 2⟩)] (.way ⟨20, [5, 6], some ⟨none, none, some ("W")⟩⟩) 1 = none :=
  ((C10_way_resolution [(5, ⟨1, 2⟩)]
      ⟨20, [5, 6], some ⟨none, none, some ("W")⟩⟩).2.2.1 (by decide)).2 1

end MapZones
